import Mathlib

/-!
Shallow embedding of the health-tracker backend (src/app.py): the nutrition
resolver, the API/food caches, the image-analysis adapter and the daily
aggregator, together with theorems settling the specification claims.
Python floats are modelled as exact rationals; SQL rows as Lean structures;
database tables as lists of rows; external calls as explicit response
parameters.
-/

namespace HealthTracker

/-- Python semantics of `pat in s` prefix test on char lists. -/
def startsWith : List Char → List Char → Bool
  | [], _ => true
  | _ :: _, [] => false
  | p :: ps, c :: cs => p == c && startsWith ps cs

/-- Python semantics of `pat in s`: `pat` occurs as a contiguous substring. -/
def containsSub (pat : List Char) : List Char → Bool
  | [] => startsWith pat []
  | c :: cs => startsWith pat (c :: cs) || containsSub pat cs

/-- `strContains s pat` models Python `pat in s`. -/
def strContains (s pat : String) : Bool :=
  containsSub pat.data s.data

/-- Python `s.lower()` (ASCII, as used by the source's food names). -/
def pyLower (s : String) : String :=
  String.mk (s.data.map Char.toLower)

/-- Python `s.strip()`: remove leading and trailing whitespace. -/
def pyStrip (s : String) : String :=
  String.mk (((s.data.dropWhile Char.isWhitespace).reverse.dropWhile
    Char.isWhitespace).reverse)

/-- If `pat` is a prefix of `l`, the remainder after it. -/
def dropPre : List Char → List Char → Option (List Char)
  | [], l => some l
  | _ :: _, [] => none
  | p :: ps, c :: cs => if p = c then dropPre ps cs else none

/-- Fuel-indexed worker for `removeAllStr`. -/
def removeOccAux (pat : List Char) : ℕ → List Char → List Char
  | 0, l => l
  | fuel + 1, l =>
    match l with
    | [] => []
    | c :: cs =>
      match dropPre pat l with
      | some rest => if pat.isEmpty then l else removeOccAux pat fuel rest
      | none => c :: removeOccAux pat fuel cs

/-- Python `s.replace(pat, '')` as used by the source (removal only). -/
def removeAllStr (s pat : String) : String :=
  String.mk (removeOccAux pat.data s.data.length s.data)

/-- Python `str.split(sep)` for a one-character separator, on char lists.
Always returns at least one piece. -/
def splitOnCharList (sep : Char) : List Char → List (List Char)
  | [] => [[]]
  | c :: cs =>
    match splitOnCharList sep cs with
    | [] => [[]]
    | h :: t => if c = sep then [] :: h :: t else (c :: h) :: t

/-- Python `s.split(sep)` for a one-character separator. -/
def pySplit (s : String) (sep : Char) : List String :=
  (splitOnCharList sep s.data).map String.mk

/-- Python `s.rstrip('.')`: drop trailing dot characters. -/
def rstripDots (s : String) : String :=
  String.mk ((s.data.reverse.dropWhile (fun c => c = '.')).reverse)

/-- Value of a digit string read in base 10. -/
def digitsVal (l : List Char) : Nat :=
  l.foldl (fun a c => a * 10 + (c.toNat - 48)) 0

/-- Model of Python `float(s)` on plain decimal literals: optional sign,
digits, optional fractional part; `none` models a `ValueError`. -/
def parseFloat (s : String) : Option ℚ :=
  let t := pyStrip s
  let signAndDigits : ℚ × List Char :=
    match t.data with
    | '-' :: r => (-1, r)
    | '+' :: r => (1, r)
    | r => (1, r)
  match splitOnCharList '.' signAndDigits.2 with
  | [ip] =>
      if ip ≠ [] ∧ ip.all Char.isDigit then
        some (signAndDigits.1 * (digitsVal ip : ℚ))
      else none
  | [ip, fp] =>
      if (ip ≠ [] ∨ fp ≠ []) ∧ ip.all Char.isDigit ∧ fp.all Char.isDigit then
        some (signAndDigits.1 * ((digitsVal ip : ℚ) + (digitsVal fp : ℚ) / (10 ^ fp.length : ℚ)))
      else none
  | _ => none

/-- The four macro-nutrient values returned by the resolver. -/
structure Nutrition where
  calories : ℚ
  protein : ℚ
  fat : ℚ
  carbohydrates : ℚ
deriving DecidableEq

/-- A row of the `food_cache` table (per-100g base values, app.py:454-465). -/
structure FoodCacheRow where
  food_name : String
  calories : ℚ
  protein : ℚ
  fat : ℚ
  carbohydrates : ℚ
deriving DecidableEq

/-- Scaling of per-100g base values to the 150g reference serving. -/
def scale15 (n : Nutrition) : Nutrition :=
  ⟨n.calories * 1.5, n.protein * 1.5, n.fat * 1.5, n.carbohydrates * 1.5⟩

/-- `get_cached_food_nutrition` (app.py:572-600): case-insensitive exact
lookup in `food_cache`; on a hit, the stored per-100g values scaled by 1.5. -/
def get_cached_food_nutrition (cache : List FoodCacheRow) (food_name : String) :
    Option Nutrition :=
  match cache.find? (fun r => pyLower r.food_name == pyLower food_name) with
  | some r => some (scale15 ⟨r.calories, r.protein, r.fat, r.carbohydrates⟩)
  | none => none

/-- `save_food_to_cache` (app.py:602-638): upsert keyed on `food_name`,
storing the values divided back to the per-100g base. -/
def save_food_to_cache (cache : List FoodCacheRow) (food_name : String)
    (nutrition : Nutrition) : List FoodCacheRow :=
  { food_name := food_name
    calories := nutrition.calories / 1.5
    protein := nutrition.protein / 1.5
    fat := nutrition.fat / 1.5
    carbohydrates := nutrition.carbohydrates / 1.5 } ::
    cache.filter (fun r => !(r.food_name == food_name))

/-- The built-in per-100g estimate table `NUTRITION_ESTIMATES`
(app.py:650-671), in source iteration order. -/
def NUTRITION_ESTIMATES : List (String × Nutrition) :=
  [("chicken", ⟨165, 31, 3.6, 0⟩),
   ("potato", ⟨77, 2, 0.1, 17⟩),
   ("green beans", ⟨31, 1.8, 0.2, 7⟩),
   ("butternut squash", ⟨45, 1, 0.1, 12⟩),
   ("rice", ⟨130, 2.7, 0.3, 28⟩),
   ("bread", ⟨265, 9, 3.2, 49⟩),
   ("egg", ⟨155, 13, 11, 1.1⟩),
   ("salmon", ⟨208, 20, 13, 0⟩),
   ("beef", ⟨250, 26, 15, 0⟩),
   ("pasta", ⟨131, 5, 1.1, 25⟩),
   ("apple", ⟨52, 0.3, 0.2, 14⟩),
   ("banana", ⟨89, 1.1, 0.3, 23⟩),
   ("broccoli", ⟨34, 2.8, 0.4, 7⟩),
   ("carrot", ⟨41, 0.9, 0.2, 10⟩),
   ("cheese", ⟨402, 25, 33, 1.3⟩),
   ("milk", ⟨42, 3.4, 1, 5⟩),
   ("yogurt", ⟨59, 10, 0.4, 3.6⟩),
   ("avocado", ⟨160, 2, 15, 9⟩),
   ("tomato", ⟨18, 0.9, 0.2, 3.9⟩),
   ("lettuce", ⟨15, 1.4, 0.2, 2.9⟩)]

/-- Normalisation applied to the query name (app.py:674):
`food_item.lower().strip().rstrip('.')`. -/
def normalizeFood (food_item : String) : String :=
  rstripDots (pyStrip (pyLower food_item))

/-- First estimate-table entry matching the normalised name by
case-insensitive substring in either direction (app.py:677-678). -/
def matchEstimate (food_lower : String) : Option (String × Nutrition) :=
  NUTRITION_ESTIMATES.find?
    (fun kv => strContains food_lower kv.1 || strContains kv.1 food_lower)

/-- Shape of the FatSecret `foods.search` response as observed by the branch
structure of `get_nutrition_from_fatsecret` (app.py:705-741): a transport
failure, an `error` field, a missing/empty `foods` object, a missing/empty
`food` list, or a first food carrying a `food_description` string (possibly
empty). -/
inductive FSResponse where
  | transportErr
  | errorField
  | noFoods
  | emptyFoodList
  | withFood (description : String)
deriving DecidableEq

/-- The generic fallback estimate (app.py:694 and the later fallbacks). -/
def GENERIC_NUTRITION : Nutrition := ⟨100, 5, 3, 15⟩

/-- `part.split(':')[1].strip()` used by every field parse (app.py:752-771). -/
def parseFieldStr (part : String) : String :=
  pyStrip ((pySplit part ':').getD 1 "")

/-- One loop iteration of the description parser (app.py:748-773): strip the
part, pick the first matching field by the if/elif order, and leave the
accumulator unchanged when `float` fails. -/
def applyPart (n : Nutrition) (rawPart : String) : Nutrition :=
  let part := pyStrip rawPart
  if strContains part "Calories:" then
    match parseFloat (removeAllStr (parseFieldStr part) "kcal") with
    | some v => { n with calories := v }
    | none => n
  else if strContains part "Fat:" then
    match parseFloat (removeAllStr (parseFieldStr part) "g") with
    | some v => { n with fat := v }
    | none => n
  else if strContains part "Carbs:" then
    match parseFloat (removeAllStr (parseFieldStr part) "g") with
    | some v => { n with carbohydrates := v }
    | none => n
  else if strContains part "Protein:" then
    match parseFloat (removeAllStr (parseFieldStr part) "g") with
    | some v => { n with protein := v }
    | none => n
  else n

/-- Parse of a pipe-delimited `food_description` (app.py:744-773), starting
from the all-zero accumulator. -/
def parseNutritionDescription (description : String) : Nutrition :=
  (pySplit description '|').foldl applyPart ⟨0, 0, 0, 0⟩

/-- `any(v > 0 for v in nutrition.values())` (app.py:776). -/
def anyPositive (n : Nutrition) : Bool :=
  decide (0 < n.calories) || decide (0 < n.protein) ||
  decide (0 < n.fat) || decide (0 < n.carbohydrates)

/-- Result of one resolver run: the returned nutrition, the `food_cache`
table afterwards, and whether the external API was called. -/
structure ResolveResult where
  nutrition : Nutrition
  cache : List FoodCacheRow
  apiCalled : Bool
deriving DecidableEq

/-- `get_nutrition_from_fatsecret` (app.py:640-788). `hasToken` models
whether `FATSECRET_ACCESS_TOKEN` is configured; `api` models the response
the external call would produce. -/
def get_nutrition_from_fatsecret (cache : List FoodCacheRow) (hasToken : Bool)
    (api : FSResponse) (food_item : String) : ResolveResult :=
  match get_cached_food_nutrition cache food_item with
  | some n => ⟨n, cache, false⟩
  | none =>
    match matchEstimate (normalizeFood food_item) with
    | some kv =>
        let result := scale15 kv.2
        ⟨result, save_food_to_cache cache food_item result, false⟩
    | none =>
      if !hasToken then ⟨GENERIC_NUTRITION, cache, false⟩
      else
        match api with
        | .transportErr => ⟨GENERIC_NUTRITION, cache, true⟩
        | .errorField => ⟨GENERIC_NUTRITION, cache, true⟩
        | .noFoods => ⟨GENERIC_NUTRITION, cache, true⟩
        | .emptyFoodList => ⟨GENERIC_NUTRITION, cache, true⟩
        | .withFood description =>
          if description == "" then ⟨GENERIC_NUTRITION, cache, true⟩
          else
            let nutrition := parseNutritionDescription description
            if anyPositive nutrition then ⟨nutrition, cache, true⟩
            else ⟨GENERIC_NUTRITION, cache, true⟩

/-! ### Generic API cache (`api_cache` table) -/

/-- A row of the `api_cache` table (app.py:444-452). Timestamps are modelled
as seconds; the JSON payload is modelled as the decoded value itself (the
`json.dumps`/`json.loads` round trip is exact for the cached food lists). -/
structure CacheEntry where
  cache_key : String
  response_data : List String
  created_at : ℕ
  expires_at : ℕ
deriving DecidableEq

/-- `save_to_cache` (app.py:503-527): upsert keyed on `cache_key` with
`expires_at = now + hours`. -/
def save_to_cache (cache : List CacheEntry) (now : ℕ) (key : String)
    (data : List String) (hours : ℕ) : List CacheEntry :=
  { cache_key := key
    response_data := data
    created_at := now
    expires_at := now + 3600 * hours } ::
    cache.filter (fun e => !(e.cache_key == key))

/-- `get_cached_response` (app.py:480-501): the payload of an entry for the
key with `expires_at > now`, otherwise a miss. -/
def get_cached_response (cache : List CacheEntry) (now : ℕ) (key : String) :
    Option (List String) :=
  match cache.find? (fun e => e.cache_key == key && decide (now < e.expires_at)) with
  | some e => some e.response_data
  | none => none

/-! ### Image analysis adapter -/

/-- Shape of the Gemini call outcome as observed by `analyze_image_with_gemini`
(app.py:546-570): a transport failure (`RequestException`), a shape failure
(`KeyError`/`IndexError` while extracting), or an extracted text (possibly
empty). -/
inductive GeminiResponse where
  | transportErr
  | shapeErr
  | ok (text : String)
deriving DecidableEq

/-- Result of one adapter run: the Python return value (`None` is a failure,
`[]` the explicit empty result), the `api_cache` table afterwards, and
whether the external API was called. -/
structure GeminiResult where
  value : Option (List String)
  cache : List CacheEntry
  apiCalled : Bool
deriving DecidableEq

/-- Key derivation (app.py:533): a deterministic digest of the first 100
characters of the payload, modelled by the prefix itself. -/
def gemini_cache_key (image_data_base64 : String) : String :=
  String.mk (image_data_base64.data.take 100)

/-- `analyze_image_with_gemini` (app.py:529-570). -/
def analyze_image_with_gemini (cache : List CacheEntry) (now : ℕ)
    (image_data_base64 : String) (resp : GeminiResponse) : GeminiResult :=
  let key := gemini_cache_key image_data_base64
  match get_cached_response cache now key with
  | some v => ⟨some v, cache, false⟩
  | none =>
    match resp with
    | .transportErr => ⟨none, cache, true⟩
    | .shapeErr => ⟨none, cache, true⟩
    | .ok text =>
      if text == "" then ⟨some [], cache, true⟩
      else
        let food_items := (pySplit text ',').map pyStrip
        ⟨some food_items, save_to_cache cache now key food_items 168, true⟩

/-! ### Daily aggregator -/

/-- A row of the `meals` table, restricted to the fields the aggregator
reads (app.py:334-349). -/
structure MealRow where
  user_id : ℕ
  date : String
  calories : ℚ
  protein : ℚ
  fat : ℚ
  carbohydrates : ℚ
deriving DecidableEq

/-- A row of the `activities` table, restricted to the fields the aggregator
reads (app.py:367-379). -/
structure ActivityRow where
  user_id : ℕ
  date : String
  calories_burned : ℚ
deriving DecidableEq

/-- A row of the `daily_summary` table (app.py:401-417), including the two
columns the aggregator never writes (their SQLite defaults are 0 and NULL). -/
structure SummaryRow where
  user_id : ℕ
  date : String
  total_calories_consumed : ℚ
  total_calories_burned : ℚ
  net_calories : ℚ
  total_protein : ℚ
  total_fat : ℚ
  total_carbs : ℚ
  water_intake_ml : ℚ
  notes : Option String
deriving DecidableEq

/-- The tables the aggregator touches. -/
structure AggDB where
  meals : List MealRow
  activities : List ActivityRow
  daily_summary : List SummaryRow
deriving DecidableEq

/-- The unique `daily_summary` row for a user and date, if present. -/
def findSummary (db : AggDB) (user_id : ℕ) (date : String) : Option SummaryRow :=
  db.daily_summary.find? (fun r => decide (r.user_id = user_id ∧ r.date = date))

/-- `update_daily_summary` (app.py:803-839): SQL `SUM` aggregates over the
rows for the user and date (`NULL`-on-no-rows coerced to 0 by `or 0`,
matching `List.sum` of the empty list), then `INSERT OR REPLACE` of the row
keyed by `UNIQUE(user_id, date)`; the unnamed columns take their defaults. -/
def update_daily_summary (db : AggDB) (user_id : ℕ) (date_str : String) : AggDB :=
  let ms := db.meals.filter (fun m => decide (m.user_id = user_id ∧ m.date = date_str))
  let as' := db.activities.filter (fun a => decide (a.user_id = user_id ∧ a.date = date_str))
  let total_consumed := (ms.map (·.calories)).sum
  let total_burned := (as'.map (·.calories_burned)).sum
  let row : SummaryRow :=
    { user_id := user_id
      date := date_str
      total_calories_consumed := total_consumed
      total_calories_burned := total_burned
      net_calories := total_consumed - total_burned
      total_protein := (ms.map (·.protein)).sum
      total_fat := (ms.map (·.fat)).sum
      total_carbs := (ms.map (·.carbohydrates)).sum
      water_intake_ml := 0
      notes := none }
  { db with
    daily_summary :=
      row :: db.daily_summary.filter
        (fun r => !(decide (r.user_id = user_id ∧ r.date = date_str))) }

/-- The read half of the `/api/daily-summary/<date_str>` endpoint
(app.py:1334-1356): return the stored row, creating it first through
`update_daily_summary` when absent. -/
def daily_summary_endpoint (db : AggDB) (user_id : ℕ) (date_str : String) :
    Option SummaryRow × AggDB :=
  match findSummary db user_id date_str with
  | some r => (some r, db)
  | none =>
    let db' := update_daily_summary db user_id date_str
    (findSummary db' user_id date_str, db')

/-! ### Helper lemmas -/

theorem splitOnCharList_ne_nil (sep : Char) (l : List Char) :
    splitOnCharList sep l ≠ [] := by
  cases l with
  | nil => simp [splitOnCharList]
  | cons c cs =>
    cases h : splitOnCharList sep cs with
    | nil => simp [splitOnCharList, h]
    | cons x t =>
      simp only [splitOnCharList, h]
      split <;> simp

theorem pySplit_ne_nil (s : String) (sep : Char) : pySplit s sep ≠ [] := by
  simp [pySplit, splitOnCharList_ne_nil]

theorem findSummary_update (db : AggDB) (u : ℕ) (d : String) :
    findSummary (update_daily_summary db u d) u d = some
      { user_id := u
        date := d
        total_calories_consumed :=
          ((db.meals.filter (fun m => decide (m.user_id = u ∧ m.date = d))).map
            (·.calories)).sum
        total_calories_burned :=
          ((db.activities.filter (fun a => decide (a.user_id = u ∧ a.date = d))).map
            (·.calories_burned)).sum
        net_calories :=
          ((db.meals.filter (fun m => decide (m.user_id = u ∧ m.date = d))).map
            (·.calories)).sum -
          ((db.activities.filter (fun a => decide (a.user_id = u ∧ a.date = d))).map
            (·.calories_burned)).sum
        total_protein :=
          ((db.meals.filter (fun m => decide (m.user_id = u ∧ m.date = d))).map
            (·.protein)).sum
        total_fat :=
          ((db.meals.filter (fun m => decide (m.user_id = u ∧ m.date = d))).map
            (·.fat)).sum
        total_carbs :=
          ((db.meals.filter (fun m => decide (m.user_id = u ∧ m.date = d))).map
            (·.carbohydrates)).sum
        water_intake_ml := 0
        notes := none } := by
  unfold findSummary update_daily_summary
  exact List.find?_cons_of_pos _ (by simp)

/-! ### Claim C1 -/

/-- C1: after `update_daily_summary(userId, date)` runs, the stored
`daily_summary` row for that key has `total_calories_consumed` equal to the
sum of `calories` over the user's meals for the date,
`total_calories_burned` equal to the sum of `calories_burned` over the
activities, `net_calories` equal to their difference, and
`total_protein`/`total_fat`/`total_carbs` equal to the corresponding meal
sums, with an empty set of rows summing to 0. -/
theorem update_daily_summary_totals (db : AggDB) (u : ℕ) (d : String) :
    ∃ row : SummaryRow,
      findSummary (update_daily_summary db u d) u d = some row ∧
      row.total_calories_consumed =
        ((db.meals.filter (fun m => decide (m.user_id = u ∧ m.date = d))).map
          (·.calories)).sum ∧
      row.total_calories_burned =
        ((db.activities.filter (fun a => decide (a.user_id = u ∧ a.date = d))).map
          (·.calories_burned)).sum ∧
      row.net_calories = row.total_calories_consumed - row.total_calories_burned ∧
      row.total_protein =
        ((db.meals.filter (fun m => decide (m.user_id = u ∧ m.date = d))).map
          (·.protein)).sum ∧
      row.total_fat =
        ((db.meals.filter (fun m => decide (m.user_id = u ∧ m.date = d))).map
          (·.fat)).sum ∧
      row.total_carbs =
        ((db.meals.filter (fun m => decide (m.user_id = u ∧ m.date = d))).map
          (·.carbohydrates)).sum :=
  ⟨_, findSummary_update db u d, rfl, rfl, rfl, rfl, rfl, rfl⟩

/-! ### Claim C9 -/

/-- C9: when a `daily_summary` row exists with nonzero `water_intake_ml` or
non-null `notes`, running `update_daily_summary` replaces the whole row via
INSERT OR REPLACE, so afterwards `water_intake_ml` is back to its column
default 0 and `notes` to NULL. -/
theorem resync_resets_water_and_notes (db : AggDB) (u : ℕ) (d : String)
    (row : SummaryRow) (hrow : findSummary db u d = some row)
    (hmut : row.water_intake_ml ≠ 0 ∨ row.notes ≠ none) :
    ∃ row2 : SummaryRow,
      findSummary (update_daily_summary db u d) u d = some row2 ∧
      row2.water_intake_ml = 0 ∧ row2.notes = none :=
  ⟨_, findSummary_update db u d, rfl, rfl⟩

/-- Witness for C9: a stored summary with `water_intake_ml = 500` and a note
is reset by the resync. -/
theorem resync_resets_water_and_notes_witness :
    ∃ row2 : SummaryRow,
      findSummary
        (update_daily_summary
          ⟨[], [],
           [⟨1, "2024-01-01", 0, 0, 0, 0, 0, 0, 500, some "note"⟩]⟩ 1 "2024-01-01")
        1 "2024-01-01" = some row2 ∧
      row2.water_intake_ml = 0 ∧ row2.notes = none :=
  resync_resets_water_and_notes
    ⟨[], [], [⟨1, "2024-01-01", 0, 0, 0, 0, 0, 0, 500, some "note"⟩]⟩
    1 "2024-01-01" ⟨1, "2024-01-01", 0, 0, 0, 0, 0, 0, 500, some "note"⟩
    rfl (Or.inr (by simp))

/-! ### Claim C6 -/

/-- C6: the daily-summary read returns the stored row when present, and
otherwise first runs `update_daily_summary` and re-reads, so the caller
never observes a missing summary; a date with no meal or activity records
materialises as the all-zero summary. -/
theorem daily_summary_get_or_create (db : AggDB) (u : ℕ) (d : String) :
    (∃ row : SummaryRow, (daily_summary_endpoint db u d).1 = some row) ∧
    (∀ row : SummaryRow, findSummary db u d = some row →
      daily_summary_endpoint db u d = (some row, db)) ∧
    (findSummary db u d = none →
      daily_summary_endpoint db u d =
        (findSummary (update_daily_summary db u d) u d,
         update_daily_summary db u d)) ∧
    (findSummary db u d = none →
      db.meals.filter (fun m => decide (m.user_id = u ∧ m.date = d)) = [] →
      db.activities.filter (fun a => decide (a.user_id = u ∧ a.date = d)) = [] →
      (daily_summary_endpoint db u d).1 =
        some ⟨u, d, 0, 0, 0, 0, 0, 0, 0, none⟩) := by
  refine ⟨?_, ?_, ?_, ?_⟩
  · cases h : findSummary db u d with
    | some row => exact ⟨row, by simp [daily_summary_endpoint, h]⟩
    | none =>
      exact ⟨_, by simp only [daily_summary_endpoint, h]; exact findSummary_update db u d⟩
  · intro row h
    simp [daily_summary_endpoint, h]
  · intro h
    simp [daily_summary_endpoint, h]
  · intro h hm ha
    simp only [daily_summary_endpoint, h]
    rw [findSummary_update db u d, hm, ha]
    simp

/-- Witness for C6: on an empty database, the read materialises and returns
the all-zero summary for user 1 on 2024-01-01. -/
theorem daily_summary_get_or_create_witness :
    (daily_summary_endpoint ⟨[], [], []⟩ 1 "2024-01-01").1 =
      some ⟨1, "2024-01-01", 0, 0, 0, 0, 0, 0, 0, none⟩ :=
  (daily_summary_get_or_create ⟨[], [], []⟩ 1 "2024-01-01").2.2.2 rfl rfl rfl

/-! ### Claim C5 -/

/-- Counterexample for C5: the claim quantifies over every ttl, but with
`ttl = 0` hours the entry is written with `expires_at = now`, the read
condition `expires_at > now` fails, and the immediate `get` is already a
miss instead of returning the value. -/
theorem cache_zero_ttl_cex :
    get_cached_response (save_to_cache [] 0 "k" ["v"] 0) 0 "k" = none ∧
    (none : Option (List String)) ≠ some ["v"] := by
  exact ⟨rfl, by simp⟩

/-- C5 amended: for every positive ttl, a `put` followed by a `get` at the
same time returns the value; once the current time passes the stored
`expires_at = now + ttl`, the `get` is a miss; and a key with no entry at
all is likewise a miss — expired and absent entries are indistinguishable. -/
theorem cache_round_trip (cache : List CacheEntry) (now : ℕ) (key : String)
    (v : List String) (hours later : ℕ) (h : 0 < hours) :
    get_cached_response (save_to_cache cache now key v hours) now key = some v ∧
    (now + 3600 * hours < later →
      get_cached_response (save_to_cache cache now key v hours) later key = none) ∧
    ((∀ e ∈ cache, e.cache_key ≠ key) →
      get_cached_response cache now key = none) := by
  refine ⟨?_, ?_, ?_⟩
  · unfold get_cached_response save_to_cache
    rw [List.find?_cons_of_pos _ (by simp; omega)]
  · intro hl
    unfold get_cached_response save_to_cache
    have h1 : List.find?
        (fun e => e.cache_key == key && decide (later < e.expires_at))
        ({ cache_key := key, response_data := v, created_at := now,
           expires_at := now + 3600 * hours } ::
          cache.filter (fun e => !(e.cache_key == key))) = none := by
      rw [List.find?_cons_of_neg _ (by simp; omega), List.find?_eq_none]
      intro e he
      have h2 := (List.mem_filter.mp he).2
      simp only [Bool.not_eq_true'] at h2
      simp [h2]
    rw [h1]
  · intro hall
    unfold get_cached_response
    have h1 : List.find?
        (fun e => e.cache_key == key && decide (now < e.expires_at)) cache = none := by
      rw [List.find?_eq_none]
      intro e he
      simp [hall e he]
    rw [h1]

/-- Witness for C5 amended: ttl 24 hours, write at time 0, read at 0 hits;
read at 100000 (past expiry 86400) misses; the untouched empty cache
misses. -/
theorem cache_round_trip_witness :
    get_cached_response (save_to_cache [] 0 "k" ["v"] 24) 0 "k" = some ["v"] ∧
    (0 + 3600 * 24 < 100000 →
      get_cached_response (save_to_cache [] 0 "k" ["v"] 24) 100000 "k" = none) ∧
    ((∀ e ∈ ([] : List CacheEntry), e.cache_key ≠ "k") →
      get_cached_response [] 0 "k" = none) :=
  cache_round_trip [] 0 "k" ["v"] 24 100000 (by decide)

theorem get_cached_food_nutrition_save (cache : List FoodCacheRow) (food : String)
    (n : Nutrition) :
    get_cached_food_nutrition (save_food_to_cache cache food n) food = some n := by
  obtain ⟨a, b, c, d⟩ := n
  unfold get_cached_food_nutrition save_food_to_cache
  rw [List.find?_cons_of_pos _ (by simp)]
  show some (scale15 ⟨a / 1.5, b / 1.5, c / 1.5, d / 1.5⟩) = some ⟨a, b, c, d⟩
  simp only [scale15, Option.some.injEq, Nutrition.mk.injEq]
  refine ⟨?_, ?_, ?_, ?_⟩ <;> exact div_mul_cancel₀ _ (by norm_num)

/-! ### Claim C7 -/

/-- C7: resolving "grilled chicken breast" on an empty food cache matches
the estimate-table key "chicken" (the first entry in table order, matched by
case-insensitive substring in either direction) and returns exactly
165*1.5 kcal, 31*1.5 g protein, 3.6*1.5 g fat and 0 g carbohydrates. -/
theorem resolver_grilled_chicken_breast :
    matchEstimate (normalizeFood "grilled chicken breast") =
      some ("chicken", ⟨165, 31, 3.6, 0⟩) ∧
    (get_nutrition_from_fatsecret [] false .transportErr
        "grilled chicken breast").nutrition =
      ⟨165 * 1.5, 31 * 1.5, 3.6 * 1.5, 0⟩ := by
  have hmiss : get_cached_food_nutrition [] "grilled chicken breast" = none := rfl
  have hmatch : matchEstimate (normalizeFood "grilled chicken breast") =
      some ("chicken", ⟨165, 31, 3.6, 0⟩) := rfl
  have h1 : (get_nutrition_from_fatsecret [] false .transportErr
      "grilled chicken breast").nutrition = scale15 ⟨165, 31, 3.6, 0⟩ := by
    simp [get_nutrition_from_fatsecret, hmiss, hmatch]
  refine ⟨hmatch, ?_⟩
  rw [h1]
  norm_num [scale15]

/-! ### Claim C2 -/

/-- Counterexample for C2: for the unseen food "quinoa" resolved through the
external API (description "Calories: 200kcal | Fat: 10g"), the resolver
returns without persisting anything to `food_cache`, so the second call is
not answered from the cache and invokes the external API again. -/
theorem resolver_api_path_not_cached_cex :
    (get_nutrition_from_fatsecret [] true
        (.withFood "Calories: 200kcal | Fat: 10g") "quinoa").cache = [] ∧
    get_cached_food_nutrition
      (get_nutrition_from_fatsecret [] true
        (.withFood "Calories: 200kcal | Fat: 10g") "quinoa").cache "quinoa" = none ∧
    (get_nutrition_from_fatsecret
      (get_nutrition_from_fatsecret [] true
        (.withFood "Calories: 200kcal | Fat: 10g") "quinoa").cache
      true (.withFood "Calories: 200kcal | Fat: 10g") "quinoa").apiCalled = true := by
  have hmiss : get_cached_food_nutrition [] "quinoa" = none := rfl
  have hnoest : matchEstimate (normalizeFood "quinoa") = none := by decide
  have hp : parseNutritionDescription "Calories: 200kcal | Fat: 10g" =
      ⟨(1 : ℚ) * ((200 : ℕ) : ℚ), 0, (1 : ℚ) * ((10 : ℕ) : ℚ), 0⟩ := rfl
  have hparse : parseNutritionDescription "Calories: 200kcal | Fat: 10g" =
      ⟨200, 0, 10, 0⟩ := by rw [hp]; norm_num
  have hpos : anyPositive (⟨200, 0, 10, 0⟩ : Nutrition) = true := by
    norm_num [anyPositive]
  have hne : (("Calories: 200kcal | Fat: 10g" == "") : Bool) = false := rfl
  have h1 : get_nutrition_from_fatsecret [] true
      (.withFood "Calories: 200kcal | Fat: 10g") "quinoa" =
      ⟨⟨200, 0, 10, 0⟩, [], true⟩ := by
    simp [get_nutrition_from_fatsecret, hmiss, hnoest, hparse, hne, hpos]
  have hc : (get_nutrition_from_fatsecret [] true
      (.withFood "Calories: 200kcal | Fat: 10g") "quinoa").cache = [] := by
    rw [h1]
  refine ⟨hc, ?_, ?_⟩
  · rw [hc]
    exact hmiss
  · rw [hc, h1]

/-- C2 amended: only the estimate-table path persists its result before
returning. For an unseen food name that matches the built-in estimate table,
resolving twice returns identical values, neither call invokes the external
API, and the second call is answered from the local `food_cache`; the
external-API and generic-fallback paths return without writing to
`food_cache`. -/
theorem resolver_estimate_path_idempotent (cache : List FoodCacheRow) (tok : Bool)
    (api₁ api₂ : FSResponse) (food : String) (kv : String × Nutrition)
    (hmiss : get_cached_food_nutrition cache food = none)
    (hmatch : matchEstimate (normalizeFood food) = some kv) :
    (get_nutrition_from_fatsecret cache tok api₁ food).apiCalled = false ∧
    get_cached_food_nutrition
        (get_nutrition_from_fatsecret cache tok api₁ food).cache food =
      some (get_nutrition_from_fatsecret cache tok api₁ food).nutrition ∧
    (get_nutrition_from_fatsecret
        (get_nutrition_from_fatsecret cache tok api₁ food).cache
        tok api₂ food).nutrition =
      (get_nutrition_from_fatsecret cache tok api₁ food).nutrition ∧
    (get_nutrition_from_fatsecret
        (get_nutrition_from_fatsecret cache tok api₁ food).cache
        tok api₂ food).apiCalled = false := by
  have h1 : get_nutrition_from_fatsecret cache tok api₁ food =
      ⟨scale15 kv.2, save_food_to_cache cache food (scale15 kv.2), false⟩ := by
    simp [get_nutrition_from_fatsecret, hmiss, hmatch]
  have h2 : get_cached_food_nutrition
      (save_food_to_cache cache food (scale15 kv.2)) food = some (scale15 kv.2) :=
    get_cached_food_nutrition_save cache food (scale15 kv.2)
  rw [h1]
  exact ⟨rfl, h2, by simp [get_nutrition_from_fatsecret, h2],
    by simp [get_nutrition_from_fatsecret, h2]⟩

/-- Witness for C2 amended: the unseen food "rice" matched by the estimate
table is persisted, and the second resolution is a cache hit with the same
value and no API call. -/
theorem resolver_estimate_path_idempotent_witness :
    (get_nutrition_from_fatsecret [] false .transportErr "rice").apiCalled = false ∧
    get_cached_food_nutrition
        (get_nutrition_from_fatsecret [] false .transportErr "rice").cache "rice" =
      some (get_nutrition_from_fatsecret [] false .transportErr "rice").nutrition ∧
    (get_nutrition_from_fatsecret
        (get_nutrition_from_fatsecret [] false .transportErr "rice").cache
        false .transportErr "rice").nutrition =
      (get_nutrition_from_fatsecret [] false .transportErr "rice").nutrition ∧
    (get_nutrition_from_fatsecret
        (get_nutrition_from_fatsecret [] false .transportErr "rice").cache
        false .transportErr "rice").apiCalled = false :=
  resolver_estimate_path_idempotent [] false .transportErr .transportErr "rice"
    ("rice", ⟨130, 2.7, 0.3, 28⟩) rfl rfl

/-! ### Claim C3 -/

/-- Counterexample for C3: for the unseen food "ramen" resolved through the
external API, the parsed per-100g base is 100 kcal / 2 g fat, and the
resolver returns that base unscaled, which differs from 1.5 times the base
as the claim requires. -/
theorem resolver_api_path_unscaled_cex :
    parseNutritionDescription "Calories: 100kcal | Fat: 2g" = ⟨100, 0, 2, 0⟩ ∧
    (get_nutrition_from_fatsecret [] true
        (.withFood "Calories: 100kcal | Fat: 2g") "ramen").nutrition =
      ⟨100, 0, 2, 0⟩ ∧
    (⟨100, 0, 2, 0⟩ : Nutrition) ≠ scale15 ⟨100, 0, 2, 0⟩ := by
  have hmiss : get_cached_food_nutrition [] "ramen" = none := rfl
  have hnoest : matchEstimate (normalizeFood "ramen") = none := by decide
  have hp : parseNutritionDescription "Calories: 100kcal | Fat: 2g" =
      ⟨(1 : ℚ) * ((100 : ℕ) : ℚ), 0, (1 : ℚ) * ((2 : ℕ) : ℚ), 0⟩ := rfl
  have hparse : parseNutritionDescription "Calories: 100kcal | Fat: 2g" =
      ⟨100, 0, 2, 0⟩ := by rw [hp]; norm_num
  have hpos : anyPositive (⟨100, 0, 2, 0⟩ : Nutrition) = true := by
    norm_num [anyPositive]
  have hne : (("Calories: 100kcal | Fat: 2g" == "") : Bool) = false := rfl
  refine ⟨hparse, ?_, ?_⟩
  · simp [get_nutrition_from_fatsecret, hmiss, hnoest, hparse, hne, hpos]
  · norm_num [scale15, Nutrition.mk.injEq]

/-- C3 amended: the local-cache and estimate-table paths return 1.5 times
the per-100g base values of the matched source, while the external-API path
returns the parsed per-100g values unscaled. -/
theorem resolver_scaling_by_path (cache : List FoodCacheRow) (tok : Bool)
    (api : FSResponse) (food : String) :
    (∀ row : FoodCacheRow,
      cache.find? (fun r => pyLower r.food_name == pyLower food) = some row →
      (get_nutrition_from_fatsecret cache tok api food).nutrition =
        scale15 ⟨row.calories, row.protein, row.fat, row.carbohydrates⟩) ∧
    (∀ kv : String × Nutrition,
      get_cached_food_nutrition cache food = none →
      matchEstimate (normalizeFood food) = some kv →
      (get_nutrition_from_fatsecret cache tok api food).nutrition = scale15 kv.2) ∧
    (∀ d : String,
      get_cached_food_nutrition cache food = none →
      matchEstimate (normalizeFood food) = none →
      tok = true → api = .withFood d → (d == "") = false →
      anyPositive (parseNutritionDescription d) = true →
      (get_nutrition_from_fatsecret cache tok api food).nutrition =
        parseNutritionDescription d) := by
  refine ⟨?_, ?_, ?_⟩
  · intro row hrow
    simp [get_nutrition_from_fatsecret, get_cached_food_nutrition, hrow]
  · intro kv hmiss hmatch
    simp [get_nutrition_from_fatsecret, hmiss, hmatch]
  · intro d hmiss hnoest htok hapi hne hpos
    subst htok
    subst hapi
    simp [get_nutrition_from_fatsecret, hmiss, hnoest, hne, hpos]

/-- Witness for C3 amended: a cached food "oats" is returned at 1.5 times
its stored per-100g base. -/
theorem resolver_scaling_by_path_witness :
    (get_nutrition_from_fatsecret [⟨"oats", 389, 16.9, 6.9, 66⟩] false
        .transportErr "oats").nutrition = scale15 ⟨389, 16.9, 6.9, 66⟩ :=
  (resolver_scaling_by_path [⟨"oats", 389, 16.9, 6.9, 66⟩] false .transportErr
      "oats").1 ⟨"oats", 389, 16.9, 6.9, 66⟩ rfl

/-! ### Claim C4 -/

/-- C4: with no local-cache and no estimate-table match, if no API token is
configured, or the external call fails in transport, reports an error field,
returns no foods or an empty food list, or its description parses to
all-zero macros, the resolver returns exactly
calories 100, protein 5, fat 3, carbohydrates 15. -/
theorem resolver_generic_fallback (cache : List FoodCacheRow) (tok : Bool)
    (api : FSResponse) (food : String)
    (hmiss : get_cached_food_nutrition cache food = none)
    (hnoest : matchEstimate (normalizeFood food) = none)
    (hfail : tok = false ∨ api = .transportErr ∨ api = .errorField ∨
      api = .noFoods ∨ api = .emptyFoodList ∨
      ∃ d, api = .withFood d ∧ parseNutritionDescription d = ⟨0, 0, 0, 0⟩) :
    (get_nutrition_from_fatsecret cache tok api food).nutrition =
      GENERIC_NUTRITION := by
  rcases hfail with h | h | h | h | h | ⟨d, hapi, hzero⟩
  · subst h
    simp [get_nutrition_from_fatsecret, hmiss, hnoest]
  · subst h
    cases tok <;> simp [get_nutrition_from_fatsecret, hmiss, hnoest]
  · subst h
    cases tok <;> simp [get_nutrition_from_fatsecret, hmiss, hnoest]
  · subst h
    cases tok <;> simp [get_nutrition_from_fatsecret, hmiss, hnoest]
  · subst h
    cases tok <;> simp [get_nutrition_from_fatsecret, hmiss, hnoest]
  · subst hapi
    cases tok with
    | false => simp [get_nutrition_from_fatsecret, hmiss, hnoest]
    | true =>
      have hpos : anyPositive (parseNutritionDescription d) = false := by
        rw [hzero]
        norm_num [anyPositive]
      by_cases hd : (d == "") = true
      · simp [get_nutrition_from_fatsecret, hmiss, hnoest, hd]
      · simp only [Bool.not_eq_true] at hd
        simp [get_nutrition_from_fatsecret, hmiss, hnoest, hd, hpos]

/-- Witness for C4: the unknown food "xyzzy" with no token configured
resolves to the generic estimate. -/
theorem resolver_generic_fallback_witness :
    (get_nutrition_from_fatsecret [] false .transportErr "xyzzy").nutrition =
      GENERIC_NUTRITION :=
  resolver_generic_fallback [] false .transportErr "xyzzy" rfl (by decide)
    (Or.inl rfl)

/-! ### Claim C8 -/

/-- C8: on a cache miss, the image analysis distinguishes three mutually
exclusive outcomes: a transport or response-shape failure yields the failure
signal (`none`); a successful call with empty text yields the explicit
empty result (`some []`), distinct from the failure; and a successful call
with non-empty text yields a non-empty food list that is cached and
returned. -/
theorem gemini_three_outcomes (cache : List CacheEntry) (now : ℕ)
    (image text : String)
    (h : get_cached_response cache now (gemini_cache_key image) = none) :
    (analyze_image_with_gemini cache now image .transportErr).value = none ∧
    (analyze_image_with_gemini cache now image .shapeErr).value = none ∧
    (text = "" →
      (analyze_image_with_gemini cache now image (.ok text)).value = some []) ∧
    (text ≠ "" →
      (analyze_image_with_gemini cache now image (.ok text)).value =
        some ((pySplit text ',').map pyStrip) ∧
      (pySplit text ',').map pyStrip ≠ [] ∧
      get_cached_response
        (analyze_image_with_gemini cache now image (.ok text)).cache now
        (gemini_cache_key image) = some ((pySplit text ',').map pyStrip)) ∧
    (∀ l : List String, (some l : Option (List String)) ≠ none) := by
  refine ⟨?_, ?_, ?_, ?_, ?_⟩
  · simp [analyze_image_with_gemini, h]
  · simp [analyze_image_with_gemini, h]
  · intro ht
    subst ht
    simp [analyze_image_with_gemini, h]
  · intro ht
    have hne : (text == "") = false := by simp [ht]
    refine ⟨?_, ?_, ?_⟩
    · simp [analyze_image_with_gemini, h, hne]
    · simp only [ne_eq, List.map_eq_nil_iff]
      exact pySplit_ne_nil text ','
    · have hres : (analyze_image_with_gemini cache now image (.ok text)).cache =
          save_to_cache cache now (gemini_cache_key image)
            ((pySplit text ',').map pyStrip) 168 := by
        simp [analyze_image_with_gemini, h, hne]
      rw [hres]
      unfold get_cached_response save_to_cache
      rw [List.find?_cons_of_pos _ (by simp)]
  · intro l
    simp

/-- Witness for C8: on an empty cache, the text "eggs, toast" yields a
non-empty food list which is cached and returned. -/
theorem gemini_three_outcomes_witness :
    (analyze_image_with_gemini [] 0 "imgdata" (.ok "eggs, toast")).value =
      some ((pySplit "eggs, toast" ',').map pyStrip) ∧
    (pySplit "eggs, toast" ',').map pyStrip ≠ [] ∧
    get_cached_response
      (analyze_image_with_gemini [] 0 "imgdata" (.ok "eggs, toast")).cache 0
      (gemini_cache_key "imgdata") =
      some ((pySplit "eggs, toast" ',').map pyStrip) :=
  (gemini_three_outcomes [] 0 "imgdata" "eggs, toast" rfl).2.2.2.1 (by decide)

/-! ### Claim C10 -/

/-- C10: when the recognition call succeeds with empty text, the explicit
empty result is returned without writing the cache, so a second call for
the same payload misses the cache and invokes the external API again. -/
theorem gemini_empty_not_cached (cache : List CacheEntry) (now : ℕ)
    (image : String) (resp₂ : GeminiResponse)
    (h : get_cached_response cache now (gemini_cache_key image) = none) :
    (analyze_image_with_gemini cache now image (.ok "")).value = some [] ∧
    (analyze_image_with_gemini cache now image (.ok "")).cache = cache ∧
    (analyze_image_with_gemini
      (analyze_image_with_gemini cache now image (.ok "")).cache
      now image resp₂).apiCalled = true := by
  have h1 : analyze_image_with_gemini cache now image (.ok "") =
      ⟨some [], cache, true⟩ := by
    simp [analyze_image_with_gemini, h]
  refine ⟨by rw [h1], by rw [h1], ?_⟩
  rw [h1]
  cases resp₂ with
  | transportErr => simp [analyze_image_with_gemini, h]
  | shapeErr => simp [analyze_image_with_gemini, h]
  | ok t =>
    by_cases ht : (t == "") = true
    · simp [analyze_image_with_gemini, h, ht]
    · simp only [Bool.not_eq_true] at ht
      simp [analyze_image_with_gemini, h, ht]

/-- Witness for C10: on an empty cache, an empty-text analysis returns the
empty result, leaves the cache untouched, and the next call still reaches
the API. -/
theorem gemini_empty_not_cached_witness :
    (analyze_image_with_gemini [] 0 "imgdata2" (.ok "")).value = some [] ∧
    (analyze_image_with_gemini [] 0 "imgdata2" (.ok "")).cache = [] ∧
    (analyze_image_with_gemini
      (analyze_image_with_gemini [] 0 "imgdata2" (.ok "")).cache
      0 "imgdata2" .transportErr).apiCalled = true :=
  gemini_empty_not_cached [] 0 "imgdata2" .transportErr rfl

end HealthTracker
